import Mathlib

/-!
Verification development for the AI Sentiment Analyzer (src/app.py).

The Python source is shallowly embedded: pure string manipulation is
translated to Lean functions on String and List Char, the single remote
call of each component is replaced by an explicit argument describing the
provider's outcome, Python floats are modelled as rationals, and every
raise site is modelled by a constructor of an explicit failure type.
-/

namespace SentimentApp

/-- The whitespace characters removed by Python str.strip with no
argument, restricted to the ASCII range actually reachable here
(space, tab, newline, carriage return, vertical tab, form feed).
Other Unicode whitespace is not modelled; no claim depends on it. -/
def isPySpace (c : Char) : Bool :=
  c = ' ' || c = '\t' || c = '\n' || c = '\x0d' || c = '\x0b' || c = '\x0c'

/-- Python str.strip(): drop leading and trailing whitespace. -/
def pyStrip (s : String) : String :=
  String.mk (((s.data.dropWhile isPySpace).reverse.dropWhile isPySpace).reverse)

/-- Does the pattern occur as a leading segment of the list (Python
str.startswith on character lists)? -/
def isPre : List Char → List Char → Bool
  | [], _ => true
  | _ :: _, [] => false
  | p :: ps, c :: cs => p = c && isPre ps cs

/-- Drop an expected leading segment, returning the remainder when the
segment is present. -/
def dropPre : List Char → List Char → Option (List Char)
  | [], cs => some cs
  | _ :: _, [] => none
  | p :: ps, c :: cs => if p = c then dropPre ps cs else none

/-- Python substring containment (the in operator on str). -/
def containsSub (pat : List Char) : List Char → Bool
  | [] => isPre pat []
  | c :: cs => isPre pat (c :: cs) || containsSub pat cs

/-- Python str.lower, modelled for the ASCII model identifiers used by
the app (Char.toLower lowers exactly the ASCII uppercase letters). -/
def pyLower (s : String) : String :=
  String.mk (s.data.map Char.toLower)

/-- Regex match of src/app.py line 55: re.match of the raw pattern
anchored prefix group (sk- or sess- or rk-) followed by dot-plus.
The dot of the regex matches any character except a newline, and
re.match only needs a match at the start, so the whole test is: one of
the three literal markers leads the string and the character right
after it exists and is not a newline. -/
def reKeyHead : Option (List Char) → Bool
  | some (c :: _) => !(c = '\n')
  | _ => false

/-- Structural pre-check on a credential, src/app.py lines 53-55
(function with the same name). The credential is stripped; an empty
result fails (the trailing conditional of line 55 binds the whole
disjunction), otherwise the regex above or a length of at least 20
characters passes. -/
def _looks_like_openai_key (key : String) : Bool :=
  let k := pyStrip key
  if k = "" then false
  else reKeyHead (dropPre ("sk-".data) k.data)
    || reKeyHead (dropPre ("sess-".data) k.data)
    || reKeyHead (dropPre ("rk-".data) k.data)
    || decide (20 ≤ k.length)

/-- Outcome of the one provider call made by validate_api_key
(client.models.list() preceded by client construction), one constructor
per except clause of src/app.py lines 67-82.  The exception classes of
the openai package are disjoint at these clauses because the more
specific classes are listed first.  unexpected also covers the
RuntimeError of _get_client when the openai package is missing. -/
inductive ProviderOutcome
  | success
  | authenticationError
  | rateLimitError
  | apiConnectionError
  | apiError (msg : String)
  | openaiError (msg : String)
  | unexpected (msg : String)
deriving DecidableEq

/-- Does validate_api_key reach the provider call?  The try block of
src/app.py lines 67-70, which contains the only network access, is
entered exactly when the structural pre-check passes. -/
def validate_calls_provider (api_key : String) : Bool :=
  _looks_like_openai_key api_key

/-- src/app.py lines 64-82: validate_api_key.  The remote call is
replaced by the explicit outcome argument; each branch returns the
literal message of the source, with provider-supplied text appended
where the source interpolates it. -/
def validate_api_key (api_key : String) (o : ProviderOutcome) : Bool × String :=
  if !_looks_like_openai_key api_key then
    (false, "Key format looks incorrect.")
  else
    match o with
    | ProviderOutcome.success => (true, "Key validated successfully.")
    | ProviderOutcome.authenticationError =>
        (false, "Authentication failed: invalid or revoked API key.")
    | ProviderOutcome.rateLimitError =>
        (true, "Key is valid, but you are rate-limited right now.")
    | ProviderOutcome.apiConnectionError =>
        (false, "Could not reach OpenAI (network/connectivity issue).")
    | ProviderOutcome.apiError m =>
        (false, "OpenAI API error while validating key: " ++ m)
    | ProviderOutcome.openaiError m =>
        (false, "OpenAI error while validating key: " ++ m)
    | ProviderOutcome.unexpected m =>
        (false, "Unexpected error while validating key: " ++ m)

/-- JSON values as decoded by Python json.loads: objects become dicts
(modelled as association lists in insertion order, a later duplicate
key shadowing an earlier one on lookup), arrays become lists, numbers
become rationals (Python distinguishes int from float; that
distinction and binary-float rounding are not modelled, no claim
depends on them). -/
inductive JValue
  | null
  | bool (b : Bool)
  | num (q : ℚ)
  | str (s : String)
  | arr (elems : List JValue)
  | obj (fields : List (String × JValue))

/-- Python dict.get with a default, on the association-list model: the
last binding of the key wins, as later duplicate keys overwrite
earlier ones when json.loads builds the dict. -/
def dictGet (fields : List (String × JValue)) (k : String) (dflt : JValue) : JValue :=
  match fields.reverse.find? (fun p => p.fst = k) with
  | some p => p.snd
  | none => dflt

/-- JSON whitespace accepted between tokens by json.loads
(space, tab, newline, carriage return). -/
def jsonWs (c : Char) : Bool :=
  c = ' ' || c = '\t' || c = '\n' || c = '\x0d'

/-- Skip JSON inter-token whitespace. -/
def skipWs (cs : List Char) : List Char := cs.dropWhile jsonWs

/-- Numeric value of a decimal digit character. -/
def digitVal (c : Char) : Nat := c.toNat - 48

/-- Decimal digits to a natural number. -/
def digitsToNat (ds : List Char) : Nat :=
  ds.foldl (fun n c => 10 * n + digitVal c) 0

/-- Split a leading run of decimal digits from the rest. -/
def splitDigits (cs : List Char) : List Char × List Char :=
  (cs.takeWhile Char.isDigit, cs.dropWhile Char.isDigit)

/-- Value of a hexadecimal digit character, if it is one. -/
def hexVal (c : Char) : Option Nat :=
  if c.isDigit then some (c.toNat - 48)
  else if 'a' ≤ c ∧ c ≤ 'f' then some (c.toNat - 87)
  else if 'A' ≤ c ∧ c ≤ 'F' then some (c.toNat - 55)
  else none

/-- Four hexadecimal digits of a JSON unicode escape. -/
def parseHex4 : List Char → Option (Nat × List Char)
  | a :: b :: c :: d :: rest =>
    match hexVal a, hexVal b, hexVal c, hexVal d with
    | some x, some y, some z, some w => some (((x * 16 + y) * 16 + z) * 16 + w, rest)
    | _, _, _, _ => none
  | _ => none

/-- Body of a JSON string after the opening quote, with the standard
escapes.  Raw control characters are rejected as in strict json.loads.
Surrogate-pair unicode escapes are not modelled (no claim uses them). -/
def parseStringBody (fuel : Nat) (acc : List Char) (cs : List Char) : Option (String × List Char) :=
  match fuel, cs with
  | 0, _ => none
  | _, [] => none
  | f + 1, c :: rest =>
    if c = '"' then some (String.mk acc.reverse, rest)
    else if c = '\\' then
      match rest with
      | [] => none
      | e :: rest2 =>
        if e = '"' then parseStringBody f ('"' :: acc) rest2
        else if e = '\\' then parseStringBody f ('\\' :: acc) rest2
        else if e = '/' then parseStringBody f ('/' :: acc) rest2
        else if e = 'b' then parseStringBody f ('\x08' :: acc) rest2
        else if e = 'f' then parseStringBody f ('\x0c' :: acc) rest2
        else if e = 'n' then parseStringBody f ('\n' :: acc) rest2
        else if e = 'r' then parseStringBody f ('\x0d' :: acc) rest2
        else if e = 't' then parseStringBody f ('\t' :: acc) rest2
        else if e = 'u' then
          match parseHex4 rest2 with
          | some (n, rest3) =>
            if n < 0xd800 then
              parseStringBody f (Char.ofNat n :: acc) rest3
            else if 0xdfff < n ∧ n < 0x110000 then
              parseStringBody f (Char.ofNat n :: acc) rest3
            else none
          | none => none
        else none
    else if c.toNat < 32 then none
    else parseStringBody f (c :: acc) rest

/-- Exponent of a JSON or Python float literal, after the e marker:
optional sign then at least one digit. -/
def parseExpAfterMark (r : List Char) : Option (Int × List Char) :=
  let sr : Int × List Char :=
    match r with
    | '+' :: t => (1, t)
    | '-' :: t => (-1, t)
    | _ => (1, r)
  let ds := splitDigits sr.snd
  if ds.fst = [] then none
  else some (sr.fst * (digitsToNat ds.fst : Int), ds.snd)

/-- The exact rational value of a decimal literal with sign, integer
part, fraction digits of the given count, and decimal exponent:
sign (ip + fnum / 10 ^ flen) 10 ^ e, assembled with mkRat so that the
value is a single normalization step over integer arithmetic. -/
def decimalValue (neg : Bool) (ip fnum flen : Nat) (e : Int) : ℚ :=
  let mantNat : Nat := ip * 10 ^ flen + fnum
  let mant : Int := if neg then -(mantNat : Int) else (mantNat : Int)
  if 0 ≤ e then mkRat (mant * ((10 ^ e.toNat : Nat) : Int)) (10 ^ flen)
  else mkRat mant (10 ^ flen * 10 ^ (-e).toNat)

/-- JSON number token, per the json.loads grammar: optional minus, an
integer part without leading zeros, an optional fraction needing at
least one digit, an optional exponent needing at least one digit.  A
malformed fraction or exponent is left unconsumed, as the tokenizing
regex of the json module stops before it. -/
def parseNumber (cs : List Char) : Option (ℚ × List Char) :=
  let sgn : Bool × List Char :=
    match cs with
    | '-' :: t => (true, t)
    | _ => (false, cs)
  let ip := splitDigits sgn.snd
  if ip.fst = [] then none
  else if 1 < ip.fst.length && ip.fst.headD 'x' = '0' then none
  else
    let fr : Nat × Nat × List Char :=
      match ip.snd with
      | '.' :: r =>
        let fs := splitDigits r
        if fs.fst = [] then (0, 0, ip.snd)
        else (digitsToNat fs.fst, fs.fst.length, fs.snd)
      | _ => (0, 0, ip.snd)
    let ex : Int × List Char :=
      match fr.snd.snd with
      | 'e' :: r =>
        match parseExpAfterMark r with
        | some er => er
        | none => (0, fr.snd.snd)
      | 'E' :: r =>
        match parseExpAfterMark r with
        | some er => er
        | none => (0, fr.snd.snd)
      | _ => (0, fr.snd.snd)
    some (decimalValue sgn.fst (digitsToNat ip.fst) fr.fst fr.snd.fst ex.fst, ex.snd)

mutual

/-- One JSON value, fuel-bounded recursive descent following the
json.loads grammar.  The nonstandard NaN and Infinity literals that
json.loads also accepts are not modelled (no claim uses them). -/
def parseValue : Nat → List Char → Option (JValue × List Char)
  | 0, _ => none
  | fuel + 1, cs0 =>
    match skipWs cs0 with
    | [] => none
    | c :: rest =>
      if c = '\x7b' then
        match skipWs rest with
        | '\x7d' :: r2 => some (JValue.obj [], r2)
        | r => parseMembers fuel r []
      else if c = '[' then
        match skipWs rest with
        | ']' :: r2 => some (JValue.arr [], r2)
        | r => parseElems fuel r []
      else if c = '"' then
        match parseStringBody (rest.length + 1) [] rest with
        | some (s, r) => some (JValue.str s, r)
        | none => none
      else if c = 't' then
        match rest with
        | 'r' :: 'u' :: 'e' :: r => some (JValue.bool true, r)
        | _ => none
      else if c = 'f' then
        match rest with
        | 'a' :: 'l' :: 's' :: 'e' :: r => some (JValue.bool false, r)
        | _ => none
      else if c = 'n' then
        match rest with
        | 'u' :: 'l' :: 'l' :: r => some (JValue.null, r)
        | _ => none
      else if c = '-' || c.isDigit then
        match parseNumber (c :: rest) with
        | some (q, r) => some (JValue.num q, r)
        | none => none
      else none

/-- Members of a JSON object after the opening brace (nonempty case). -/
def parseMembers : Nat → List Char → List (String × JValue) → Option (JValue × List Char)
  | 0, _, _ => none
  | fuel + 1, cs, acc =>
    match skipWs cs with
    | '"' :: rest =>
      match parseStringBody (rest.length + 1) [] rest with
      | some (k, r1) =>
        match skipWs r1 with
        | ':' :: r2 =>
          match parseValue fuel r2 with
          | some (v, r3) =>
            match skipWs r3 with
            | ',' :: r4 => parseMembers fuel r4 (acc ++ [(k, v)])
            | '\x7d' :: r4 => some (JValue.obj (acc ++ [(k, v)]), r4)
            | _ => none
          | none => none
        | _ => none
      | none => none
    | _ => none

/-- Elements of a JSON array after the opening bracket (nonempty case). -/
def parseElems : Nat → List Char → List JValue → Option (JValue × List Char)
  | 0, _, _ => none
  | fuel + 1, cs, acc =>
    match parseValue fuel cs with
    | some (v, r1) =>
      match skipWs r1 with
      | ',' :: r2 => parseElems fuel r2 (acc ++ [v])
      | ']' :: r2 => some (JValue.arr (acc ++ [v]), r2)
      | _ => none
    | none => none

end

/-- Python json.loads: parse one JSON value and require only
whitespace after it, otherwise raise (modelled as none).  The fuel is
generous: every two recursive steps consume at least one character. -/
def json_loads (s : String) : Option JValue :=
  match parseValue (2 * s.data.length + 2) s.data with
  | some (v, rest) => if skipWs rest = [] then some v else none
  | none => none

/-- Rendering of a decoded number by Python str().  Python prints ints
and shortest-round-trip floats in decimal; the exact text is not
modelled on the rational representation.  The claims depend only on
this string never being empty, whitespace-only, or equal to a
sentiment label, which holds for any rendering that starts with a
digit or a minus sign. -/
def numStr (q : ℚ) : String :=
  if q.den = 1 then toString q.num
  else toString q.num ++ "/" ++ toString q.den

mutual

/-- Python repr() on a decoded JSON value (str and repr agree on every
decoded type except str itself).  Escaping of special characters
inside rendered strings is not modelled; no claim depends on it. -/
def pyRepr : JValue → String
  | JValue.null => "None"
  | JValue.bool true => "True"
  | JValue.bool false => "False"
  | JValue.num q => numStr q
  | JValue.str s => String.mk ('\x27' :: s.data ++ ['\x27'])
  | JValue.arr xs => "[" ++ String.intercalate (", ") (pyReprList xs) ++ "]"
  | JValue.obj fs => "\x7b" ++ String.intercalate (", ") (pyReprFields fs) ++ "\x7d"

/-- repr of each element of a decoded list. -/
def pyReprList : List JValue → List String
  | [] => []
  | v :: vs => pyRepr v :: pyReprList vs

/-- repr of each key-value pair of a decoded dict. -/
def pyReprFields : List (String × JValue) → List String
  | [] => []
  | (k, v) :: fs =>
    (String.mk ('\x27' :: k.data ++ ['\x27']) ++ ": " ++ pyRepr v) :: pyReprFields fs

end

/-- Python str() on a decoded JSON value: a str is returned unchanged,
anything else renders as its repr. -/
def pyStr : JValue → String
  | JValue.str s => s
  | v => pyRepr v

/-- Python float() on a string, after stripping: optional sign, then
digits with an optional fraction (at least one digit on either side of
the point) and an optional exponent, consuming the whole string.
The inf and nan words and underscore digit separators that float()
also accepts have no rational counterpart and are not modelled. -/
def pyFloatOfChars (cs0 : List Char) : Option ℚ :=
  let sgn : Bool × List Char :=
    match cs0 with
    | '-' :: t => (true, t)
    | '+' :: t => (false, t)
    | _ => (false, cs0)
  let ip := splitDigits sgn.snd
  let fr : Option (Nat × Nat × List Char) :=
    match ip.snd with
    | '.' :: r =>
      let fs := splitDigits r
      if ip.fst = [] && fs.fst = [] then none
      else some (digitsToNat fs.fst, fs.fst.length, fs.snd)
    | _ => if ip.fst = [] then none else some (0, 0, ip.snd)
  match fr with
  | none => none
  | some (fnum, flen, cs1) =>
    let ex : Option (Int × List Char) :=
      match cs1 with
      | 'e' :: r => parseExpAfterMark r
      | 'E' :: r => parseExpAfterMark r
      | _ => some (0, cs1)
    match ex with
    | none => none
    | some (e, cs2) =>
      if cs2 = [] then some (decimalValue sgn.fst (digitsToNat ip.fst) fnum flen e)
      else none

/-- Python float() on a decoded JSON value: numbers pass through,
booleans convert to 1 and 0, strings are parsed as float literals
(stripped first), and None, lists and dicts raise TypeError, modelled
as none alongside the ValueError of a non-numeric string. -/
def pyFloat : JValue → Option ℚ
  | JValue.num q => some q
  | JValue.bool b => some (if b then 1 else 0)
  | JValue.str s => pyFloatOfChars (pyStrip s).data
  | _ => none

/-- The Python builtin max on two floats: the second when it is
strictly greater, else the first; value-equal to the lattice max. -/
def pyMax (a b : ℚ) : ℚ := if a < b then b else a

/-- The Python builtin min on two floats: the second when it is
strictly smaller, else the first; value-equal to the lattice min. -/
def pyMin (a b : ℚ) : ℚ := if b < a then b else a

/-- Python str.find for a single character: first index, or minus one. -/
def pyFind (s : String) (c : Char) : Int :=
  match s.data.findIdx? (fun a => a = c) with
  | some i => (i : Int)
  | none => -1

/-- Python str.rfind for a single character: last index, or minus one. -/
def pyRFind (s : String) (c : Char) : Int :=
  match s.data.reverse.findIdx? (fun a => a = c) with
  | some i => (s.data.length : Int) - 1 - (i : Int)
  | none => -1

/-- Python slicing s a b for the in-range case with nonnegative bounds
used at src/app.py line 127. -/
def pySlice (s : String) (a b : Int) : String :=
  String.mk ((s.data.drop a.toNat).take (b - a).toNat)

/-- src/app.py line 24: the preselected model identifier. -/
def DEFAULT_MODEL : String := "gpt-4o"

/-- src/app.py line 35: the four allowed sentiment labels. -/
def SENTIMENT_LABELS : List String := ["Positive", "Negative", "Neutral", "Mixed"]

/-- The schema key for the sentiment label. -/
def keySentiment : String := "sentiment"

/-- The schema key for the confidence value. -/
def keyConfidence : String := "confidence"

/-- The schema key for the explanation text. -/
def keyExplanation : String := "explanation"

/-- The schema key for the key-phrase array. -/
def keyPhrasesName : String := "key_phrases"

/-- The empty-string JSON default used by the .get calls for the
sentiment and explanation fields. -/
def noStr : JValue := JValue.str ("")

/-- The zero default used by the .get call for the confidence field. -/
def zeroNum : JValue := JValue.num 0

/-- The empty-array default used by the .get call for key_phrases. -/
def emptyArr : JValue := JValue.arr []

/-- src/app.py lines 45-50: the result record of one analysis. -/
structure SentimentResult where
  sentiment : String
  confidence : ℚ
  explanation : String
  key_phrases : List String
deriving DecidableEq

/-- The distinct failure exits of analyze_sentiment, one constructor
per raise site of src/app.py lines 119-140: malformedOutput is the
ValueError of line 126 (the MalformedOutput kind), invalidLabel the
ValueError of line 131 (the InvalidLabel kind), fallbackDecodeError a
JSONDecodeError escaping the json.loads of line 127, attributeError
the untyped AttributeError of calling .get on a non-dict at line 129,
and floatConvError the untyped ValueError or TypeError of float() at
line 133.  The last three are caught only by the catch-all handler of
the caller, the UnexpectedError path. -/
inductive AnalysisFailure
  | malformedOutput
  | invalidLabel (label : String)
  | fallbackDecodeError
  | attributeError
  | floatConvError
deriving DecidableEq

/-- src/app.py line 97: a model is reasoning-class when its lowercased
identifier starts with gpt-5 or contains the word reasoning. -/
def is_reasoning_model (model : String) : Bool :=
  isPre ("gpt-5".data) (pyLower model).data
    || containsSub ("reasoning".data) (pyLower model).data

/-- src/app.py lines 99-112: the sampling temperature sent with the
completion request — the provider default of 1 for reasoning-class
models (which reject any other value), 0 otherwise for deterministic
output. -/
def request_temperature (model : String) : Nat :=
  if is_reasoning_model model then 1 else 0

/-- The provider reply fields read by analyze_sentiment: the optional
reasoning_content attribute of the message (none when the attribute is
absent or None) and the optional content (None or a string). -/
structure ProviderResponse where
  reasoning_content : Option String
  content : Option String

/-- src/app.py lines 115-117: the reasoning trace is the
reasoning_content attribute when present and truthy, else empty. -/
def reasoningOf (resp : ProviderResponse) : String :=
  match resp.reasoning_content with
  | some r => if r = "" then "" else r
  | none => ""

/-- src/app.py line 119: the completion text read from the reply,
defaulted to empty when None (the or of the source) and stripped. -/
def stripContent (resp : ProviderResponse) : String :=
  pyStrip (resp.content.getD (""))

/-- src/app.py lines 121-127: parse the completion text as JSON; on
failure fall back to the substring from the first left brace to the
last right brace inclusive, raising the MalformedOutput error when no
valid such span exists, and letting a decode failure of the span
escape untyped. -/
def extract_json (content : String) : Except AnalysisFailure JValue :=
  match json_loads content with
  | some data => Except.ok data
  | none =>
    let s := pyFind content '\x7b'
    let e := pyRFind content '\x7d'
    if s = -1 ∨ e = -1 ∨ e ≤ s then
      Except.error AnalysisFailure.malformedOutput
    else
      match json_loads (pySlice content s (e + 1)) with
      | some data => Except.ok data
      | none => Except.error AnalysisFailure.fallbackDecodeError

/-- src/app.py lines 129-140: read the parsed payload into a
SentimentResult.  A non-dict payload raises AttributeError at the
first .get.  The sentiment is stringified and stripped, then checked
against the four labels; the confidence is converted by float() and
clamped into the unit interval; the explanation is stringified and
stripped; key_phrases is replaced by an empty list unless it is a
list, then each element is stringified and stripped, empty results are
dropped, and the first twelve survivors are kept. -/
def finishParse (data : JValue) (reasoning : String) :
    Except AnalysisFailure (SentimentResult × String) :=
  match data with
  | JValue.obj fields =>
    let sentiment := pyStrip (pyStr (dictGet fields keySentiment noStr))
    if sentiment ∈ SENTIMENT_LABELS then
      match pyFloat (dictGet fields keyConfidence zeroNum) with
      | some c =>
        let confidence : ℚ := pyMax 0 (pyMin 1 c)
        let explanation := pyStrip (pyStr (dictGet fields keyExplanation noStr))
        let kps : List JValue :=
          match dictGet fields keyPhrasesName emptyArr with
          | JValue.arr xs => xs
          | _ => []
        let key_phrases :=
          ((kps.filter (fun x => !(pyStrip (pyStr x)).isEmpty)).map
            (fun x => pyStrip (pyStr x))).take 12
        Except.ok (SentimentResult.mk sentiment confidence explanation key_phrases, reasoning)
      | none => Except.error AnalysisFailure.floatConvError
    else Except.error (AnalysisFailure.invalidLabel sentiment)
  | _ => Except.error AnalysisFailure.attributeError

/-- src/app.py lines 85-140: analyze_sentiment.  The completion call
itself is replaced by the resp argument carrying the fields the code
reads; the temperature sent with that call is request_temperature.
The completion text is defaulted to empty when None and stripped
(line 119), decoded by extract_json, and read by finishParse. -/
def analyze_sentiment (model : String) (resp : ProviderResponse) :
    Except AnalysisFailure (SentimentResult × String) :=
  let _temperature := request_temperature model
  let reasoning := reasoningOf resp
  let content := stripContent resp
  match extract_json content with
  | Except.ok data => finishParse data reasoning
  | Except.error e => Except.error e

/-- Second definition for the refinement claim on key phrases, written
from the words of the spec: convert each element to a string, trim it,
drop elements empty after trimming, truncate to at most twelve entries
in their original order; any non-array value yields the empty list. -/
def spec_key_phrases (v : JValue) : List String :=
  match v with
  | JValue.arr xs =>
    (((xs.map (fun x => pyStrip (pyStr x))).filter (fun s => !s.isEmpty)).take 12)
  | _ => []

/-- The round-trip payload of the spec: a schema-conforming completion
text. -/
def okPayloadText : String :=
  "\x7b\"sentiment\": \"Mixed\", \"confidence\": 0.73, \"explanation\": \"both good and bad\", \"key_phrases\": [\"a\", \"b\"]\x7d"

/-- The result the round-trip payload decodes to. -/
def okResult : SentimentResult :=
  SentimentResult.mk ("Mixed") (mkRat 73 100) ("both good and bad") ["a", "b"]

/-- The malformed-output scenario of the spec: valid JSON wrapped in
chatter, recoverable only through the brace-span fallback. -/
def sureText : String :=
  "Sure! \x7b\"sentiment\":\"Positive\",\"confidence\":0.9,\"explanation\":\"ok\",\"key_phrases\":[]\x7d Thanks"

/-- The payload inside sureText. -/
def sureJson : JValue :=
  JValue.obj
    [(keySentiment, JValue.str ("Positive")),
     (keyConfidence, JValue.num (mkRat 9 10)),
     (keyExplanation, JValue.str ("ok")),
     (keyPhrasesName, emptyArr)]

/-- A payload whose confidence field holds JSON null. -/
def nullConfText : String :=
  "\x7b\"sentiment\": \"Positive\", \"confidence\": null\x7d"

/-- A payload whose confidence exceeds the unit interval. -/
def conf15Text : String :=
  "\x7b\"sentiment\": \"Positive\", \"confidence\": 1.5, \"explanation\": \"ok\", \"key_phrases\": []\x7d"

/-- A payload whose confidence is negative. -/
def confNegText : String :=
  "\x7b\"sentiment\": \"Positive\", \"confidence\": -0.2, \"explanation\": \"ok\", \"key_phrases\": []\x7d"

/-- A payload with fourteen key phrases, one of which is blank after
trimming and one padded with spaces. -/
def longKPText : String :=
  "\x7b\"sentiment\": \"Positive\", \"confidence\": 0.9, \"explanation\": \"ok\", \"key_phrases\": [\" a \", \"  \", \"b\", \"c\", \"d\", \"e\", \"f\", \"g\", \"h\", \"i\", \"j\", \"k\", \"l\", \"m\"]\x7d"

/-- The twelve key phrases the long payload keeps. -/
def longKPKept : List String :=
  ["a", "b", "c", "d", "e", "f", "g", "h", "i", "j", "k", "l"]

/-- A payload whose sentiment label carries surrounding whitespace. -/
def paddedText : String :=
  "\x7b\"sentiment\": \"  Positive \", \"confidence\": 0.9, \"explanation\": \"ok\", \"key_phrases\": []\x7d"

/-- A payload whose sentiment label differs from a valid one only in
case. -/
def lowerText : String :=
  "\x7b\"sentiment\": \"positive\"\x7d"

/-- A payload whose sentiment label is not one of the four. -/
def angryText : String :=
  "\x7b\"sentiment\": \"Angry\"\x7d"

/-- A completion text that is valid JSON whose top-level value is an
array, not an object. -/
def arrayText : String := "[1, 2]"

/-- A completion text with no JSON and no brace span at all. -/
def chatterText : String := "no json here"

/-- A structurally plausible credential for witnesses. -/
def testKey : String := "sk-test-abcdefghijkl"

/-- The expected result for sureText and paddedText. -/
def positiveOkResult : SentimentResult :=
  SentimentResult.mk ("Positive") (mkRat 9 10) ("ok") []

/-- The fields of the payload with confidence 1.5, as decoded. -/
def conf15Fields : List (String × JValue) :=
  [(keySentiment, JValue.str ("Positive")),
   (keyConfidence, JValue.num (mkRat 3 2)),
   (keyExplanation, JValue.str ("ok")),
   (keyPhrasesName, emptyArr)]

theorem pyClamp_nonneg (c : ℚ) : 0 ≤ pyMax 0 (pyMin 1 c) := by
  unfold pyMax
  split
  · exact le_of_lt (by assumption)
  · exact le_refl 0

theorem pyClamp_le_one (c : ℚ) : pyMax 0 (pyMin 1 c) ≤ 1 := by
  unfold pyMax pyMin
  by_cases h : c < 1
  · simp only [if_pos h]
    split
    · exact le_of_lt h
    · exact zero_le_one
  · simp only [if_neg h]
    split
    · exact le_refl 1
    · exact zero_le_one

theorem pyClamp_eq_clamp (c : ℚ) : pyMax 0 (pyMin 1 c) = max 0 (min 1 c) := by
  unfold pyMax pyMin
  rw [min_def, max_def]
  by_cases h1 : c < 1
  · rw [if_neg (not_le.mpr h1), if_pos h1]
    by_cases h2 : 0 < c
    · rw [if_pos h2, if_pos (le_of_lt h2)]
    · rw [if_neg h2]
      by_cases h3 : (0 : ℚ) ≤ c
      · rw [if_pos h3]
        exact (le_antisymm (not_lt.mp h2) h3).symm
      · rw [if_neg h3]
  · rw [if_pos (not_lt.mp h1), if_neg h1, if_pos zero_lt_one, if_pos zero_le_one]

theorem code_kp_eq_spec (v : JValue) :
    (((match v with | JValue.arr xs => xs | _ => ([] : List JValue)).filter
        (fun x => !(pyStrip (pyStr x)).isEmpty)).map (fun x => pyStrip (pyStr x))).take 12
      = spec_key_phrases v := by
  cases v <;> simp [spec_key_phrases, List.filter_map] <;> rfl

theorem finishParse_ok_cases (d : JValue) (r : String) (res : SentimentResult) (r2 : String)
    (h : finishParse d r = Except.ok (res, r2)) :
    ∃ fields q,
      d = JValue.obj fields ∧ r2 = r ∧
      pyFloat (dictGet fields keyConfidence zeroNum) = some q ∧
      res.sentiment = pyStrip (pyStr (dictGet fields keySentiment noStr)) ∧
      res.sentiment ∈ SENTIMENT_LABELS ∧
      res.confidence = pyMax 0 (pyMin 1 q) ∧
      res.explanation = pyStrip (pyStr (dictGet fields keyExplanation noStr)) ∧
      res.key_phrases = spec_key_phrases (dictGet fields keyPhrasesName emptyArr) := by
  cases d with
  | obj fields =>
    simp only [finishParse] at h
    by_cases hs : pyStrip (pyStr (dictGet fields keySentiment noStr)) ∈ SENTIMENT_LABELS
    · rw [if_pos hs] at h
      cases hq : pyFloat (dictGet fields keyConfidence zeroNum) with
      | none => rw [hq] at h; exact absurd h (by simp)
      | some q =>
        rw [hq] at h
        simp only [Except.ok.injEq, Prod.mk.injEq] at h
        obtain ⟨hres, hr⟩ := h
        refine ⟨fields, q, rfl, hr.symm, hq, ?_, ?_, ?_, ?_, ?_⟩
        · rw [← hres]
        · rw [← hres]; exact hs
        · rw [← hres]
        · rw [← hres]
        · rw [← hres]; exact code_kp_eq_spec (dictGet fields keyPhrasesName emptyArr)
    · rw [if_neg hs] at h
      exact absurd h (by simp)
  | null => exact absurd h (by simp [finishParse])
  | bool b => exact absurd h (by simp [finishParse])
  | num q => exact absurd h (by simp [finishParse])
  | str s => exact absurd h (by simp [finishParse])
  | arr xs => exact absurd h (by simp [finishParse])

theorem extract_json_direct (c : String) (d : JValue) (h : json_loads c = some d) :
    extract_json c = Except.ok d := by
  unfold extract_json
  rw [h]

theorem analyze_eq_finish (model : String) (resp : ProviderResponse) (d : JValue)
    (h : extract_json (stripContent resp) = Except.ok d) :
    analyze_sentiment model resp = finishParse d (reasoningOf resp) := by
  simp only [analyze_sentiment]
  rw [h]

theorem analyze_ok_elim (model : String) (resp : ProviderResponse) (res : SentimentResult)
    (r : String) (h : analyze_sentiment model resp = Except.ok (res, r)) :
    ∃ d, extract_json (stripContent resp) = Except.ok d ∧
      finishParse d (reasoningOf resp) = Except.ok (res, r) := by
  cases hE : extract_json (stripContent resp) with
  | ok d =>
    rw [analyze_eq_finish model resp d hE] at h
    exact ⟨d, rfl, h⟩
  | error e =>
    simp only [analyze_sentiment] at h
    rw [hE] at h
    exact absurd h (by simp)

theorem allspace_strip (s : String) (h : ∀ c ∈ s.data, isPySpace c = true) :
    pyStrip s = ("") := by
  have h0 : s.data.dropWhile isPySpace = [] := List.dropWhile_eq_nil_iff.mpr h
  unfold pyStrip
  rw [h0]
  rfl

theorem dictGet_of_absent (fields : List (String × JValue)) (k : String) (dflt : JValue)
    (h : ∀ p ∈ fields, p.fst ≠ k) : dictGet fields k dflt = dflt := by
  unfold dictGet
  rw [List.find?_eq_none.mpr]
  intro p hp
  simp only [decide_eq_true_eq]
  exact h p (List.mem_reverse.mp hp)

/-- Claim C1: every SentimentResult returned by analyze_sentiment
satisfies the data-model invariant — its sentiment is one of the four
labels, its confidence lies in the closed unit interval, and its
key_phrases list holds at most twelve entries. -/
theorem analyze_result_invariant (model : String) (resp : ProviderResponse)
    (res : SentimentResult) (r : String)
    (h : analyze_sentiment model resp = Except.ok (res, r)) :
    res.sentiment ∈ SENTIMENT_LABELS ∧ 0 ≤ res.confidence ∧ res.confidence ≤ 1 ∧
      res.key_phrases.length ≤ 12 := by
  obtain ⟨d, hE, hF⟩ := analyze_ok_elim model resp res r h
  obtain ⟨fields, q, hd, hr, hq, hsent, hmem, hconf, hexp, hkp⟩ :=
    finishParse_ok_cases d (reasoningOf resp) res r hF
  refine ⟨hmem, ?_, ?_, ?_⟩
  · rw [hconf]; exact pyClamp_nonneg q
  · rw [hconf]; exact pyClamp_le_one q
  · rw [hkp]
    unfold spec_key_phrases
    cases dictGet fields keyPhrasesName emptyArr <;> simp

/-- Witness for C1: the schema round-trip payload of the spec is
accepted and its result satisfies the invariant. -/
theorem analyze_result_invariant_witness :
    analyze_sentiment DEFAULT_MODEL (ProviderResponse.mk none (some okPayloadText)) =
        Except.ok (okResult, ("")) ∧
      (okResult.sentiment ∈ SENTIMENT_LABELS ∧ 0 ≤ okResult.confidence ∧
        okResult.confidence ≤ 1 ∧ okResult.key_phrases.length ≤ 12) :=
  ⟨rfl,
    analyze_result_invariant DEFAULT_MODEL (ProviderResponse.mk none (some okPayloadText))
      okResult ("") rfl⟩

/-- Claim C2: a credential failing the structural pre-check is
rejected with the fixed message whatever the provider would have
answered, and the provider is never called for it; the empty string
and every all-whitespace string fail the pre-check. -/
theorem structural_reject :
    (∀ (k : String) (o : ProviderOutcome), _looks_like_openai_key k = false →
        validate_api_key k o = (false, "Key format looks incorrect.") ∧
          validate_calls_provider k = false)
      ∧ (∀ s : String, (∀ c ∈ s.data, isPySpace c = true) →
          _looks_like_openai_key s = false) := by
  constructor
  · intro k o hk
    constructor
    · simp [validate_api_key, hk]
    · exact hk
  · intro s hs
    simp [_looks_like_openai_key, allspace_strip s hs]

/-- Witness for C2: the empty credential is rejected without a
provider call, and a blank credential fails the pre-check. -/
theorem structural_reject_witness :
    (validate_api_key ("") ProviderOutcome.success = (false, "Key format looks incorrect.") ∧
        validate_calls_provider ("") = false)
      ∧ _looks_like_openai_key (" \t ") = false :=
  ⟨(structural_reject.1 ("") ProviderOutcome.success rfl),
    structural_reject.2 (" \t ") (by decide)⟩

/-- Claim C3: validate_api_key is total — it returns a boolean-message
pair for every credential and provider outcome (it is a Lean function
into Bool × String, so no exception escapes) — and the boolean is true
exactly when the pre-check passed and the provider call succeeded or
was rate-limited; a rate-limited credential counts as usable. -/
theorem validate_classification (k : String) (o : ProviderOutcome) :
    (validate_api_key k o).fst = true ↔
      (_looks_like_openai_key k = true ∧
        (o = ProviderOutcome.success ∨ o = ProviderOutcome.rateLimitError)) := by
  cases hk : _looks_like_openai_key k <;> cases o <;> simp [validate_api_key, hk]

/-- Witness for C3: a structurally plausible key that hits the rate
limit still validates as usable. -/
theorem validate_classification_witness :
    (validate_api_key testKey ProviderOutcome.rateLimitError).fst = true :=
  (validate_classification testKey ProviderOutcome.rateLimitError).mpr
    ⟨rfl, Or.inr rfl⟩

/-- Claim C8: the completion request uses the provider-default
temperature of one exactly for identifiers matching the
reasoning-class pattern and the deterministic temperature of zero
otherwise; gpt-5-mini selects the default, gpt-4o-mini selects zero. -/
theorem temperature_policy :
    (∀ m : String, request_temperature m = 1 ↔ is_reasoning_model m = true)
      ∧ (∀ m : String, request_temperature m = 0 ↔ is_reasoning_model m = false)
      ∧ request_temperature ("gpt-5-mini") = 1
      ∧ request_temperature ("gpt-4o-mini") = 0 := by
  refine ⟨?_, ?_, rfl, rfl⟩ <;>
    intro m <;> cases h : is_reasoning_model m <;> simp [request_temperature, h]

/-- Witness for C8: the policy instantiated at the default model. -/
theorem temperature_policy_witness :
    request_temperature DEFAULT_MODEL = 0 ↔ is_reasoning_model DEFAULT_MODEL = false :=
  temperature_policy.2.1 DEFAULT_MODEL

/-- Counterexample for C4: a payload whose confidence field is present
but non-numeric (JSON null) does not yield a result with confidence
zero — analyze_sentiment fails with the untyped float-conversion
error, which only the caller's catch-all handler can classify. -/
theorem confidence_nonnumeric_raises :
    analyze_sentiment DEFAULT_MODEL (ProviderResponse.mk none (some nullConfText)) =
      Except.error AnalysisFailure.floatConvError := rfl

/-- Claim C4 as amended: on every successful parse the confidence is
the float() conversion of the provider value clamped into the unit
interval, so 1.5 yields exactly 1 and -0.2 yields exactly 0, and a
missing confidence field yields 0; but a present value that float()
cannot convert makes the adapter raise instead of defaulting to 0
(when the sentiment label was valid, the error is the conversion
error). -/
theorem confidence_clamp :
    (∀ fields r res r2, finishParse (JValue.obj fields) r = Except.ok (res, r2) →
        ∃ q, pyFloat (dictGet fields keyConfidence zeroNum) = some q ∧
          res.confidence = max 0 (min 1 q))
      ∧ (∀ fields r, pyStrip (pyStr (dictGet fields keySentiment noStr)) ∈ SENTIMENT_LABELS →
          pyFloat (dictGet fields keyConfidence zeroNum) = none →
          finishParse (JValue.obj fields) r = Except.error AnalysisFailure.floatConvError)
      ∧ (∀ fields r res r2, finishParse (JValue.obj fields) r = Except.ok (res, r2) →
          (∀ p ∈ fields, p.fst ≠ keyConfidence) → res.confidence = 0)
      ∧ analyze_sentiment DEFAULT_MODEL (ProviderResponse.mk none (some conf15Text)) =
          Except.ok (SentimentResult.mk ("Positive") 1 ("ok") [], (""))
      ∧ analyze_sentiment DEFAULT_MODEL (ProviderResponse.mk none (some confNegText)) =
          Except.ok (SentimentResult.mk ("Positive") 0 ("ok") [], ("")) := by
  refine ⟨?_, ?_, ?_, rfl, rfl⟩
  · intro fields r res r2 h
    obtain ⟨fields2, q, hd, hr, hq, hsent, hmem, hconf, hexp, hkp⟩ :=
      finishParse_ok_cases (JValue.obj fields) r res r2 h
    cases hd
    exact ⟨q, hq, by rw [hconf]; exact pyClamp_eq_clamp q⟩
  · intro fields r hs hq
    simp only [finishParse]
    rw [if_pos hs, hq]
  · intro fields r res r2 h habs
    obtain ⟨fields2, q, hd, hr, hq, hsent, hmem, hconf, hexp, hkp⟩ :=
      finishParse_ok_cases (JValue.obj fields) r res r2 h
    cases hd
    rw [dictGet_of_absent fields keyConfidence zeroNum habs] at hq
    have hq0 : q = 0 := by
      have : pyFloat zeroNum = some 0 := rfl
      rw [this] at hq
      exact (Option.some.injEq _ _ ▸ hq).symm
    rw [hconf, hq0]
    rfl

/-- Witness for C4: the clamp conclusion instantiated at the payload
with confidence 1.5, whose parse succeeds. -/
theorem confidence_clamp_witness :
    ∃ q, pyFloat (dictGet conf15Fields keyConfidence zeroNum) = some q ∧
      (SentimentResult.mk ("Positive") 1 ("ok") []).confidence = max 0 (min 1 q) :=
  confidence_clamp.1 conf15Fields ("") (SentimentResult.mk ("Positive") 1 ("ok") []) ("") rfl

set_option maxRecDepth 8192 in
/-- Claim C5: the key_phrases of every successful analysis are the
provider array with each element stringified and trimmed, blanks
dropped, truncated to the first twelve survivors in order (the
spec-side normalization spec_key_phrases, which also sends every
non-array value to the empty list); the fourteen-element payload keeps
exactly its first twelve trimmed non-blank entries. -/
theorem key_phrases_pipeline :
    (∀ model resp res r, analyze_sentiment model resp = Except.ok (res, r) →
        ∃ fields, extract_json (stripContent resp) = Except.ok (JValue.obj fields) ∧
          res.key_phrases = spec_key_phrases (dictGet fields keyPhrasesName emptyArr))
      ∧ (∀ fields r res r2, finishParse (JValue.obj fields) r = Except.ok (res, r2) →
          (∀ xs, dictGet fields keyPhrasesName emptyArr ≠ JValue.arr xs) →
          res.key_phrases = [])
      ∧ analyze_sentiment DEFAULT_MODEL (ProviderResponse.mk none (some longKPText)) =
          Except.ok (SentimentResult.mk ("Positive") (mkRat 9 10) ("ok") longKPKept, (""))
      ∧ longKPKept.length = 12 := by
  refine ⟨?_, ?_, by rfl, rfl⟩
  · intro model resp res r h
    obtain ⟨d, hE, hF⟩ := analyze_ok_elim model resp res r h
    obtain ⟨fields, q, hd, hr, hq, hsent, hmem, hconf, hexp, hkp⟩ :=
      finishParse_ok_cases d (reasoningOf resp) res r hF
    cases hd
    exact ⟨fields, hE, hkp⟩
  · intro fields r res r2 h habs
    obtain ⟨fields2, q, hd, hr, hq, hsent, hmem, hconf, hexp, hkp⟩ :=
      finishParse_ok_cases (JValue.obj fields) r res r2 h
    cases hd
    rw [hkp]
    unfold spec_key_phrases
    cases hv : dictGet fields keyPhrasesName emptyArr with
    | arr xs => exact absurd hv (habs xs)
    | null => rfl
    | bool b => rfl
    | num q2 => rfl
    | str s => rfl
    | obj fs => rfl

set_option maxRecDepth 8192 in
/-- Witness for C5: the normalization conclusion instantiated at the
fourteen-phrase payload. -/
theorem key_phrases_pipeline_witness :
    ∃ fields,
      extract_json (stripContent (ProviderResponse.mk none (some longKPText))) =
          Except.ok (JValue.obj fields) ∧
        (SentimentResult.mk ("Positive") (mkRat 9 10) ("ok") longKPKept).key_phrases =
          spec_key_phrases (dictGet fields keyPhrasesName emptyArr) :=
  key_phrases_pipeline.1 DEFAULT_MODEL (ProviderResponse.mk none (some longKPText))
    (SentimentResult.mk ("Positive") (mkRat 9 10) ("ok") longKPKept) ("") (by rfl)

/-- Claim C6: when the direct JSON parse of the completion text fails
and no valid brace span exists (no left brace, no right brace, or the
last right brace not after the first left brace), the adapter fails
with the MalformedOutput kind; the chattered payload of the spec fails
its direct parse yet is recovered through the brace-span fallback and
analyzed successfully. -/
theorem brace_span_fallback :
    (∀ c : String, json_loads c = none →
        (pyFind c '\x7b' = -1 ∨ pyRFind c '\x7d' = -1 ∨
          pyRFind c '\x7d' ≤ pyFind c '\x7b') →
        extract_json c = Except.error AnalysisFailure.malformedOutput)
      ∧ json_loads sureText = none
      ∧ extract_json sureText = Except.ok sureJson
      ∧ analyze_sentiment DEFAULT_MODEL (ProviderResponse.mk none (some sureText)) =
          Except.ok (positiveOkResult, ("")) := by
  refine ⟨?_, rfl, rfl, rfl⟩
  intro c h1 h2
  simp only [extract_json, h1]
  rw [if_pos h2]

/-- Witness for C6: a completion with no brace at all fails with the
MalformedOutput kind. -/
theorem brace_span_fallback_witness :
    extract_json chatterText = Except.error AnalysisFailure.malformedOutput :=
  brace_span_fallback.1 chatterText rfl (Or.inl rfl)

/-- Claim C7: whenever the decoded payload is an object whose
stringified and stripped sentiment field is not one of the four labels
(including the absent case, which defaults to the empty string), the
adapter fails with the InvalidLabel kind carrying that label — an
error return, so no SentimentResult with a substituted label is ever
produced. -/
theorem unrecognized_label (model : String) (resp : ProviderResponse)
    (fields : List (String × JValue))
    (hE : extract_json (stripContent resp) = Except.ok (JValue.obj fields))
    (hs : pyStrip (pyStr (dictGet fields keySentiment noStr)) ∉ SENTIMENT_LABELS) :
    analyze_sentiment model resp =
      Except.error
        (AnalysisFailure.invalidLabel (pyStrip (pyStr (dictGet fields keySentiment noStr)))) := by
  rw [analyze_eq_finish model resp (JValue.obj fields) hE]
  simp only [finishParse]
  rw [if_neg hs]

/-- Witness for C7: the Angry payload of the spec fails with the
InvalidLabel kind. -/
theorem unrecognized_label_witness :
    analyze_sentiment DEFAULT_MODEL (ProviderResponse.mk none (some angryText)) =
      Except.error (AnalysisFailure.invalidLabel ("Angry")) :=
  unrecognized_label DEFAULT_MODEL (ProviderResponse.mk none (some angryText))
    [(keySentiment, JValue.str ("Angry"))] rfl (by decide)

/-- Claim C9: label validation is whitespace-insensitive but
case-sensitive — a label equal to a valid one up to surrounding
whitespace is accepted and stored trimmed (every returned sentiment is
a fixed point of stripping), while a lowercase variant is rejected
with the invalid-label failure. -/
theorem label_trim_case :
    analyze_sentiment DEFAULT_MODEL (ProviderResponse.mk none (some paddedText)) =
        Except.ok (positiveOkResult, (""))
      ∧ analyze_sentiment DEFAULT_MODEL (ProviderResponse.mk none (some lowerText)) =
          Except.error (AnalysisFailure.invalidLabel ("positive"))
      ∧ (∀ model resp res r, analyze_sentiment model resp = Except.ok (res, r) →
          pyStrip res.sentiment = res.sentiment) := by
  refine ⟨rfl, rfl, ?_⟩
  intro model resp res r h
  obtain ⟨d, hE, hF⟩ := analyze_ok_elim model resp res r h
  obtain ⟨fields, q, hd, hr, hq, hsent, hmem, hconf, hexp, hkp⟩ :=
    finishParse_ok_cases d (reasoningOf resp) res r hF
  have hfix : ∀ l ∈ SENTIMENT_LABELS, pyStrip l = l := by decide
  exact hfix res.sentiment hmem

/-- Witness for C9: the stored label of the padded payload is its own
trimming. -/
theorem label_trim_case_witness :
    pyStrip positiveOkResult.sentiment = positiveOkResult.sentiment :=
  label_trim_case.2.2 DEFAULT_MODEL (ProviderResponse.mk none (some paddedText))
    positiveOkResult ("") label_trim_case.1

/-- Claim C10: a completion text that parses directly as JSON with a
non-object top-level value makes analyze_sentiment fail with the
untyped attribute error of calling .get on it — a failure distinct
from both the MalformedOutput and the InvalidLabel kinds, so only the
caller's catch-all path can classify it. -/
theorem nonobject_attribute_error (model : String) (resp : ProviderResponse) (d : JValue)
    (h1 : json_loads (stripContent resp) = some d)
    (h2 : ∀ fs, d ≠ JValue.obj fs) :
    analyze_sentiment model resp = Except.error AnalysisFailure.attributeError
      ∧ AnalysisFailure.attributeError ≠ AnalysisFailure.malformedOutput
      ∧ (∀ s, AnalysisFailure.attributeError ≠ AnalysisFailure.invalidLabel s) := by
  refine ⟨?_, by decide, fun s h => AnalysisFailure.noConfusion h⟩
  rw [analyze_eq_finish model resp d (extract_json_direct (stripContent resp) d h1)]
  cases d with
  | obj fs => exact absurd rfl (h2 fs)
  | null => rfl
  | bool b => rfl
  | num q => rfl
  | str s => rfl
  | arr xs => rfl

/-- Witness for C10: the two-element array completion hits the
attribute error. -/
theorem nonobject_attribute_error_witness :
    analyze_sentiment DEFAULT_MODEL (ProviderResponse.mk none (some arrayText)) =
        Except.error AnalysisFailure.attributeError
      ∧ AnalysisFailure.attributeError ≠ AnalysisFailure.malformedOutput
      ∧ (∀ s, AnalysisFailure.attributeError ≠ AnalysisFailure.invalidLabel s) :=
  nonobject_attribute_error DEFAULT_MODEL (ProviderResponse.mk none (some arrayText))
    (JValue.arr [JValue.num (mkRat 1 1), JValue.num (mkRat 2 1)]) rfl
    (fun _ h => JValue.noConfusion h)

end SentimentApp
